import Mathlib

/-!
Verification of the HubMind GitHub-intelligence assistant.

This file gives a shallow embedding, in Lean, of the core components of the
repository: the PR value-score and valuable-PR listing (src/tools/github_pr.py),
the issue classifier and issue-text parsing (src/tools/github_issue.py), the
LLM provider registry and adapters (src/utils/llm_factory.py), the chat
orchestration and retry path (src/agents/hubmind_agent.py), and the QA agent
(src/agents/qa_agent.py).  Python strings are modelled as Lean `String`
(both index by code points), Python floats arising in the value score as `ℚ`
(all reachable values have denominator dividing 100, where float arithmetic is
exact), Python exceptions as `Except`, and the external LLM/GitHub behaviour as
explicit oracle parameters.
-/

namespace HubMind

/-! ### Generic helpers -/

/-- Python slicing `s[:n]`: the first `n` code points of a string. -/
def pytake (s : String) (n : Nat) : String :=
  ⟨s.data.take n⟩

/-- Boolean test that `p` occurs as a leading segment of `l` (over characters). -/
def startsWithSeq (p l : List Char) : Bool :=
  match p, l with
  | [], _ => true
  | _ :: _, [] => false
  | a :: as, b :: bs => a == b && startsWithSeq as bs

/-- Boolean test that `needle` occurs contiguously inside `hay`; this is the
model of the Python substring operator `needle in hay`. -/
def containsSeq (needle hay : List Char) : Bool :=
  match hay with
  | [] => needle.isEmpty
  | _ :: t => startsWithSeq needle hay || containsSeq needle t

/-- Python `needle in hay` on strings. -/
def strContains (hay needle : String) : Bool :=
  containsSeq needle.data hay.data

/-- Python `s.lower()`, mapping each code point; Lean's `Char.toLower` performs
the ASCII case mapping, which covers every keyword the classifier matches. -/
def pyLower (s : String) : String :=
  ⟨s.data.map Char.toLower⟩

/-- Python `s.strip()`: remove leading and trailing whitespace. -/
def pyStrip (s : String) : String :=
  ⟨(((s.data.dropWhile Char.isWhitespace).reverse).dropWhile Char.isWhitespace).reverse⟩

/-- Python `s.split(sep)` for a one-character separator, over code points;
the result always has at least one (possibly empty) group. -/
def splitOnChar (sep : Char) : List Char → List (List Char)
  | [] => [[]]
  | a :: as =>
    let r := splitOnChar sep as
    if a == sep then [] :: r
    else
      match r with
      | [] => [[a]]
      | h :: t => (a :: h) :: t

/-- Python `s.split("\n")`. -/
def pyLines (s : String) : List String :=
  (splitOnChar (Char.ofNat 10) s.data).map (fun l => ⟨l⟩)

/-- Python `sep.join(xs)`. -/
def pyJoin (sep : String) : List String → String
  | [] => ""
  | [x] => x
  | x :: xs => x ++ sep ++ pyJoin sep xs

/-- Python `s.startswith(p)`. -/
def pyStartsWith (s p : String) : Bool :=
  startsWithSeq p.data s.data

/-- Strict code-point lexicographic comparison of character lists. -/
def charListLt : List Char → List Char → Bool
  | [], [] => false
  | [], _ :: _ => true
  | _ :: _, [] => false
  | a :: as, b :: bs => decide (a < b) || (a == b && charListLt as bs)

/-- The string order Python `sorted()` uses: code-point lexicographic. -/
def pyStrLe (a b : String) : Bool :=
  a == b || charListLt a.data b.data

/-- Stable insertion step used to model Python `list.sort` (a stable sort):
`a` is placed before the first element `b` with `le a b`. -/
def insertLe (le : α → α → Bool) (a : α) : List α → List α
  | [] => [a]
  | b :: bs => if le a b then a :: b :: bs else b :: insertLe le a bs

/-- Stable sort modelling Python `list.sort(key=..., reverse=...)`; with
`le x y` meaning "x may come before y", elements comparing equal keep their
original relative order, exactly as Python guarantees. -/
def sortByLe (le : α → α → Bool) : List α → List α
  | [] => []
  | a :: as => insertLe le a (sortByLe le as)

theorem insertLe_perm (le : α → α → Bool) (a : α) (l : List α) :
    (insertLe le a l).Perm (a :: l) := by
  induction l with
  | nil => simp [insertLe]
  | cons b bs ih =>
    by_cases h : le a b = true
    · simp [insertLe, h]
    · simp only [insertLe, if_neg h]
      exact (List.Perm.cons b ih).trans (List.Perm.swap a b bs)

theorem sortByLe_perm (le : α → α → Bool) (l : List α) :
    (sortByLe le l).Perm l := by
  induction l with
  | nil => simp [sortByLe]
  | cons a as ih =>
    exact (insertLe_perm le a (sortByLe le as)).trans (List.Perm.cons a ih)

theorem insertLe_pairwise (le : α → α → Bool)
    (htrans : ∀ x y z, le x y = true → le y z = true → le x z = true)
    (htot : ∀ x y, le x y = false → le y x = true)
    (a : α) : ∀ l : List α, l.Pairwise (fun x y => le x y = true) →
      (insertLe le a l).Pairwise (fun x y => le x y = true)
  | [], _ => by simp [insertLe]
  | b :: bs, hl => by
    rcases List.pairwise_cons.mp hl with ⟨hb, hbs⟩
    by_cases h : le a b = true
    · rw [insertLe, if_pos h]
      refine List.pairwise_cons.mpr ⟨?_, hl⟩
      intro x hx
      rcases List.mem_cons.mp hx with rfl | hx
      · exact h
      · exact htrans a b x h (hb x hx)
    · rw [insertLe, if_neg h]
      refine List.pairwise_cons.mpr ⟨?_, insertLe_pairwise le htrans htot a bs hbs⟩
      intro x hx
      have hx' := (insertLe_perm le a bs).mem_iff.mp hx
      rcases List.mem_cons.mp hx' with rfl | hx'
      · exact htot _ _ (by simpa using h)
      · exact hb x hx'

theorem sortByLe_pairwise (le : α → α → Bool)
    (htrans : ∀ x y z, le x y = true → le y z = true → le x z = true)
    (htot : ∀ x y, le x y = false → le y x = true) :
    ∀ l : List α, (sortByLe le l).Pairwise (fun x y => le x y = true)
  | [] => by simp [sortByLe]
  | a :: as =>
    insertLe_pairwise le htrans htot a _ (sortByLe_pairwise le htrans htot as)

/-! ### Value score (src/tools/github_pr.py, `_calculate_value_score`)

The PyGithub pull-request object supplies non-negative integer counters and a
state string; the score arithmetic (`x * 2`, `x / 100`, `min`, `round(_, 2)`)
is modelled over `ℚ`, where it coincides with CPython float arithmetic because
every intermediate value has denominator dividing 100 and magnitude far below
2^53. -/

/-- Fields of a pull request read by the PR tool.  `updatedDay` stands for
`pr.updated_at.date()` as an abstract day ordinal. -/
structure PullRequest where
  number : Nat
  title : String
  state : String
  author : String
  comments : Nat
  review_comments : Nat
  additions : Nat
  deletions : Nat
  updatedDay : Nat
  url : String
deriving DecidableEq, Repr

/-- Python `round(q, 2)`.  On every value the score computation can produce,
`q * 100` is an integer, so rounding is exact and the tie-breaking rule
(CPython rounds half to even) never comes into play. -/
def round2 (q : ℚ) : ℚ :=
  ((round (q * 100) : ℤ) : ℚ) / 100

/-- Model of `GitHubPRTool._calculate_value_score`, line by line. -/
def calculate_value_score (pr : PullRequest) : ℚ :=
  let score : ℚ := 0
  let score := score + pr.comments * 2
  let score := score + pr.review_comments * 3
  let score := if pr.additions > 0 then score + min ((pr.additions : ℚ) / 100) 10 else score
  let score := if pr.deletions > 0 then score + min ((pr.deletions : ℚ) / 100) 5 else score
  let score :=
    if pr.state = "merged" then score + 20
    else if pr.state = "open" then score + 5
    else score
  round2 score

/-- State bonus term of the value-score formula, as the spec words it. -/
def stateBonus (state : String) : ℚ :=
  if state = "merged" then 20 else if state = "open" then 5 else 0

/-! ### Valuable-PR listing (src/tools/github_pr.py, `get_valuable_prs`) -/

/-- Entry of the result list: `_pr_to_dict(pr)` plus the added
`value_score` key. -/
structure PRDict where
  number : Nat
  title : String
  state : String
  author : String
  comments : Nat
  review_comments : Nat
  additions : Nat
  deletions : Nat
  url : String
  value_score : ℚ
deriving DecidableEq, Repr

/-- Model of `_pr_to_dict` together with the
`pr_dict["value_score"] = self._calculate_value_score(pr)` assignment that
`get_valuable_prs` performs on each dict. -/
def pr_to_scored_dict (pr : PullRequest) : PRDict :=
  { number := pr.number
    title := pr.title
    state := pr.state
    author := pr.author
    comments := pr.comments
    review_comments := pr.review_comments
    additions := pr.additions
    deletions := pr.deletions
    url := pr.url
    value_score := calculate_value_score pr }

/-- Comparison used by `prs.sort(key=lambda x: x["value_score"], reverse=True)`:
descending by score, ties keeping original order under a stable sort. -/
def scoreDescLe (a b : PRDict) : Bool :=
  decide (b.value_score ≤ a.value_score)

/-- The PRs of the fetched stream that pass the loop body of
`get_valuable_prs`: updated today, scored, and with at least `min_comments`
comments. -/
def qualifyingPRs (fetched : List PullRequest) (today : Nat) (min_comments : Nat) :
    List PRDict :=
  ((fetched.filter (fun pr => pr.updatedDay == today)).map pr_to_scored_dict).filter
    (fun d => decide (min_comments ≤ d.comments))

/-- Model of `GitHubPRTool.get_valuable_prs` on the stream of pull requests the
GitHub collaborator returns (`repo.get_pulls(state="all", sort="updated",
direction="desc")`): keep those updated today with enough comments, attach the
value score, sort descending by score, truncate to `limit`. -/
def get_valuable_prs (fetched : List PullRequest) (today : Nat)
    (limit : Nat := 10) (min_comments : Nat := 3) : List PRDict :=
  (sortByLe scoreDescLe (qualifyingPRs fetched today min_comments)).take limit

/-! ### Issue classification and parsing (src/tools/github_issue.py) -/

def bug_keywords : List String :=
  ["bug", "error", "crash", "broken", "fail", "issue", "problem"]

def feature_keywords : List String :=
  ["feature", "add", "implement", "new", "enhancement", "improve"]

def doc_keywords : List String :=
  ["doc", "documentation", "readme", "guide", "tutorial"]

def urgent_keywords : List String :=
  ["urgent", "critical", "blocking", "broken", "crash"]

/-- Result of `GitHubIssueTool.classify_issue`. -/
structure IssueClassification where
  issue_type : String
  priority : String
  suggested_labels : List String
deriving DecidableEq, Repr

/-- Model of `GitHubIssueTool.classify_issue`: case-insensitive
keyword-substring matching, first match wins in the order
bug, feature, documentation, default question; priority is high exactly when
an urgent keyword occurs. -/
def classify_issue (text : String) : IssueClassification :=
  let text_lower := pyLower text
  let issue_type :=
    if bug_keywords.any (fun kw => strContains text_lower kw) then "bug"
    else if feature_keywords.any (fun kw => strContains text_lower kw) then "feature"
    else if doc_keywords.any (fun kw => strContains text_lower kw) then "documentation"
    else "question"
  let priority :=
    if urgent_keywords.any (fun kw => strContains text_lower kw) then "high"
    else "medium"
  { issue_type := issue_type
    priority := priority
    suggested_labels := [issue_type, priority] }

/-- Result of `GitHubIssueTool._parse_issue_text`. -/
structure ParsedIssue where
  title : String
  body : String
  suggested_labels : List String
deriving DecidableEq, Repr

/-- The classification header `_parse_issue_text` puts in front of the body. -/
def classificationHeader (c : IssueClassification) : String :=
  "**Type:** " ++ c.issue_type ++ "\n**Priority:** " ++ c.priority

/-- Model of `GitHubIssueTool._parse_issue_text`: the title is the first line
of the stripped text, truncated to 97 characters plus an ellipsis when longer
than 100; the body is the join of the remaining lines (or the whole text for a
single-line input), prefixed with the classification header. -/
def parse_issue_text (text : String) : ParsedIssue :=
  let lines := pyLines (pyStrip text)
  let title₀ := match lines with
    | [] => pytake text 100
    | t :: _ => t
  let title := if title₀.length > 100 then pytake title₀ 97 ++ "..." else title₀
  let body₀ := if lines.length > 1 then pyJoin "\n" lines.tail else text
  let c := classify_issue text
  let body :=
    if body₀ ≠ "" then classificationHeader c ++ "\n\n" ++ body₀
    else classificationHeader c
  { title := title
    body := body
    suggested_labels := c.suggested_labels }

/-! ### Provider registry (src/utils/llm_factory.py) -/

/-- Single quote character, spelled via its code point. -/
def sq : String :=
  String.singleton (Char.ofNat 39)

/-- The creator functions registered by `_register_builtins`, identified by
name; the Lean model tracks which creator a lookup resolves to. -/
inductive CreatorId
  | deepseek
  | openai
  | anthropic
  | google
  | azure
  | ollama
  | groq
  | openai_compatible
deriving DecidableEq, Repr

/-- The `_CREATORS` dict: keys in insertion order, overwriting on duplicates,
as a Python dict does. -/
abbrev Registry := List (String × CreatorId)

/-- Model of `LLMFactory.register`: stores the creator under `name.lower()`,
silently overwriting an existing entry. -/
def registerProvider (reg : Registry) (name : String) (c : CreatorId) : Registry :=
  let key := pyLower name
  if reg.any (fun kv => kv.1 == key) then
    reg.map (fun kv => if kv.1 == key then (kv.1, c) else kv)
  else
    reg ++ [(key, c)]

/-- The registry after `_register_builtins()` has run at import time. -/
def builtinRegistry : Registry :=
  registerProvider (registerProvider (registerProvider (registerProvider
    (registerProvider (registerProvider (registerProvider (registerProvider []
      "deepseek" .deepseek) "openai" .openai) "anthropic" .anthropic)
      "google" .google) "azure" .azure) "ollama" .ollama) "groq" .groq)
    "openai_compatible" .openai_compatible

def registryKeys (reg : Registry) : List String :=
  reg.map (fun kv => kv.1)

def lookupCreator (reg : Registry) (key : String) : Option CreatorId :=
  (reg.find? (fun kv => kv.1 == key)).map (fun kv => kv.2)

/-- Default models of `PROVIDER_CONFIGS`; `none` for a provider absent from
the table.  The `openai_compatible` entry is the empty string. -/
def providerDefaultModel : String → Option String
  | "deepseek" => some "deepseek-chat"
  | "openai" => some "gpt-4-turbo-preview"
  | "anthropic" => some "claude-3-opus-20240229"
  | "google" => some "gemini-pro"
  | "azure" => some "gpt-4"
  | "ollama" => some "llama2"
  | "groq" => some "mixtral-8x7b-32768"
  | "openai_compatible" => some ""
  | _ => none

/-- Python truthiness of an optional string: `None` and `""` are falsy. -/
def pyFalsyStr (m : Option String) : Bool :=
  match m with
  | none => true
  | some s => s == ""

/-- The error message `create_llm` raises for an unregistered provider. -/
def unsupportedProviderMsg (provider : String) (names : List String) : String :=
  "Unsupported provider: " ++ provider ++ ". Registered providers: " ++
    pyJoin ", " names ++ ". Use provider=" ++ sq ++
    "openai_compatible" ++ sq ++ " with base_url, api_key, model_name for custom APIs."

/-- Model of `LLMFactory.create_llm` up to the call of the resolved creator:
lowercases the provider, fails with the unsupported-provider message (listing
the sorted registered names) when not registered, substitutes the configured
default model when `model_name` is falsy, and hands over to the creator. -/
def create_llm (reg : Registry) (provider : String) (model_name : Option String) :
    Except String (CreatorId × Option String) :=
  let provider := pyLower provider
  match lookupCreator reg provider with
  | none =>
      let supported := sortByLe pyStrLe (registryKeys reg)
      .error (unsupportedProviderMsg provider supported)
  | some creator =>
      let model_name :=
        if pyFalsyStr model_name ∧ (providerDefaultModel provider).isSome then
          match providerDefaultModel provider with
          | some d => if d == "" then none else some d
          | none => model_name
        else model_name
      .ok (creator, model_name)

/-! ### Adapter keyword passthrough (src/utils/llm_factory.py, `_create_*`)

Each adapter forwards `**kwargs` to the client constructor after a dict
comprehension that drops some keys.  What matters for duplicate-argument
failures is which keyword names reach the constructor next to the explicitly
passed keywords, so kwargs are modelled as association lists of string keys and
values. -/

abbrev Kwargs := List (String × String)

/-- The comprehension `{k: v for k, v in kwargs.items() if k not in dropped}`. -/
def kwargsDrop (dropped : List String) (kwargs : Kwargs) : Kwargs :=
  kwargs.filter (fun kv => !(dropped.contains kv.1))

/-- Static description of one adapter: the keyword names it passes explicitly
to the client constructor, and the keys its comprehension drops from
`**kwargs`. -/
structure AdapterShape where
  name : String
  explicitKeys : List String
  droppedKeys : List String
deriving DecidableEq, Repr

/-- The eight `_create_*` adapters, transcribed from their constructor calls. -/
def adapterShapes : List AdapterShape :=
  [ { name := "deepseek"
      explicitKeys := ["model", "temperature", "api_key", "base_url"]
      droppedKeys := ["api_key", "base_url"] },
    { name := "openai"
      explicitKeys := ["model", "temperature", "api_key"]
      droppedKeys := ["api_key"] },
    { name := "anthropic"
      explicitKeys := ["model", "temperature", "api_key"]
      droppedKeys := ["api_key"] },
    { name := "google"
      explicitKeys := ["model", "temperature", "google_api_key"]
      droppedKeys := ["api_key"] },
    { name := "azure"
      explicitKeys := ["model", "temperature", "azure_endpoint", "api_key", "api_version"]
      droppedKeys := ["api_key", "endpoint", "api_version"] },
    { name := "ollama"
      explicitKeys := ["model", "temperature", "base_url"]
      droppedKeys := ["base_url"] },
    { name := "groq"
      explicitKeys := ["model", "temperature", "groq_api_key"]
      droppedKeys := ["api_key"] },
    { name := "openai_compatible"
      explicitKeys := ["model", "temperature", "api_key", "base_url"]
      droppedKeys := ["base_url", "api_key", "model", "model_name"] } ]

/-- A Python call `Client(model=..., ..., **passthrough)` raises
`TypeError: got multiple values for keyword argument` exactly when a
passthrough key repeats an explicit keyword. -/
def duplicateKeywordFailure (shape : AdapterShape) (overrides : Kwargs) : Bool :=
  (kwargsDrop shape.droppedKeys overrides).any (fun kv => shape.explicitKeys.contains kv.1)

/-- The keys the spec asserts every adapter removes before passthrough. -/
def specConsumedKeys : List String :=
  ["api_key", "base_url", "model", "model_name", "endpoint", "api_version"]

/-! ### Agent construction and tool credential binding
(src/agents/hubmind_agent.py lines 69-75, src/tools/github_pr.py lines 16-17,
src/tools/github_issue.py lines 15-16, src/tools/github_trending/tool.py) -/

/-- Keyword parameters (besides `self`) accepted by `GitHubPRTool.__init__`,
transcribed from `def __init__(self):`. -/
def prToolInitParams : List String := []

/-- Keyword parameters accepted by `GitHubIssueTool.__init__`
(`def __init__(self):`). -/
def issueToolInitParams : List String := []

/-- Keyword parameters accepted by `GitHubTrendingTool.__init__`. -/
def trendingToolInitParams : List String :=
  ["github_token", "llm_provider", "llm_api_key"]

/-- Keyword arguments `HubMindAgent.__init__` passes when it instantiates each
of the three tools (`GitHubPRTool(github_token=github_token)` and likewise for
the issue and trending tools). -/
def agentToolCallKwargs : List String := ["github_token"]

/-- A Python keyword call succeeds (no `TypeError: unexpected keyword
argument`) exactly when every passed keyword is a declared parameter. -/
def pyCallAccepts (declared passed : List String) : Bool :=
  passed.all (fun k => declared.contains k)

/-- Credential binding of `GitHubTrendingTool.__init__`:
`token = github_token or Config.GITHUB_TOKEN`. -/
def trendingBoundToken (github_token : Option String) (configToken : String) : String :=
  match github_token with
  | some t => if t == "" then configToken else t
  | none => configToken

/-! ### Chat orchestration (src/agents/hubmind_agent.py, `HubMindAgent.chat`)

The underlying LangChain agent is an external collaborator; it is modelled as
an oracle mapping the attempt index, the pre-hash thread-id seed (the string
fed to `hashlib.md5`), and the input messages to either a result or a raised
exception.  Exceptions are split into the connection class the code catches
(`BrokenPipeError`, `ConnectionError`, `OSError`) and everything else. -/

/-- The two exception classes `chat` distinguishes; `other` carries `str(e)`. -/
inductive PyExc
  | conn
  | other (msg : String)
deriving DecidableEq, Repr

/-- A `HumanMessage` in the input list. -/
structure HumanMsg where
  content : String
deriving DecidableEq, Repr

/-- One entry of the `messages` list of an agent result: an object with a
`content` attribute, a dict possibly holding a `"content"` key, or anything
else; each carries its `str()` rendering for the fallback branch. -/
inductive PyMsg
  | obj (content : String) (srepr : String)
  | dict (content : Option String) (srepr : String)
  | raw (srepr : String)
deriving DecidableEq, Repr

/-- Python `str(msg)`. -/
def PyMsg.str : PyMsg → String
  | .obj _ s => s
  | .dict _ s => s
  | .raw s => s

/-- Shape of `self.agent.invoke(...)`: a dict (with optional `messages` and
`output` keys and its own `str()`), an object with a `content` attribute, or
any other value. -/
inductive AgentResult
  | dictRes (messages : Option (List PyMsg)) (output : Option String) (srepr : String)
  | objRes (content : String)
  | rawRes (srepr : String)
deriving DecidableEq, Repr

/-- The backward scan `for msg in reversed(messages): ...` of `chat`: return
the first content that is truthy (and, for attribute access, non-blank after
`strip()`). -/
def scanMessages : List PyMsg → Option String
  | [] => none
  | m :: rest =>
    match m with
    | .obj c _ => if c ≠ "" ∧ pyStrip c ≠ "" then some c else scanMessages rest
    | .dict c _ =>
      match c with
      | some v => if v ≠ "" then some v else scanMessages rest
      | none => scanMessages rest
    | .raw _ => scanMessages rest

/-- Model of the response-extraction block of `chat` (lines 367-390): message
list first (scanning backward, falling back to `str(messages[-1])`), then the
`output` key, then a string coercion of the whole result. -/
def extract_response : AgentResult → String
  | .dictRes msgs out s =>
    match msgs with
    | some ms =>
      if ms.length > 0 then
        match scanMessages ms.reverse with
        | some a => a
        | none =>
          match ms.getLast? with
          | some m => m.str
          | none => s
      else
        match out with
        | some o => o
        | none => s
    | none =>
      match out with
      | some o => o
      | none => s
  | .objRes c => c
  | .rawRes s => s

/-- External agent behaviour: result of `self.agent.invoke` for a given
attempt index, thread-id seed, and input message list. -/
structure AgentOracle where
  invoke : Nat → String → List HumanMsg → Except PyExc AgentResult

/-- One turn of the caller-supplied chat history (unused by `chat`). -/
structure ConversationTurn where
  role : String
  content : String
deriving DecidableEq, Repr

/-- The input `chat` builds: `{"messages": [HumanMessage(content=message)]}`. -/
def inputData (message : String) : List HumanMsg :=
  [{ content := message }]

/-- Thread-id seed of the first attempt: `hashlib.md5(message.encode())`. -/
def firstSeed (message : String) : String :=
  message

/-- Thread-id seed of the retry: `hashlib.md5(f"{message}_{time.time()}")`,
with `salt` standing for the `time.time()` rendering. -/
def retrySeed (message salt : String) : String :=
  message ++ "_" ++ salt

/-- Fixed apology returned when both attempts raise a connection-class fault
("connection interrupted, please refresh the page and retry"). -/
def apologyMsg : String :=
  "连接中断，请刷新页面重试。"

/-- Generic failure message ("error processing request: {e}. Please check the
configuration."). -/
def processErrorMsg (e : String) : String :=
  "处理请求时出错: " ++ e ++ "。请检查配置是否正确。"

/-- The inner `try`: invoke once, and on a connection-class fault retry once
with the salted thread-id seed. -/
def invokeWithRetry (o : AgentOracle) (message salt : String) :
    Except PyExc AgentResult :=
  match o.invoke 0 (firstSeed message) (inputData message) with
  | .error .conn => o.invoke 1 (retrySeed message salt) (inputData message)
  | r => r

/-- Model of `HubMindAgent.chat`.  `chat_history` is accepted, and never read,
exactly as in the source; the outer `try` turns a connection-class fault into
the apology string and any other exception into the generic failure string. -/
def chat (message : String) (chat_history : List ConversationTurn)
    (salt : String) (o : AgentOracle) : String :=
  match invokeWithRetry o message salt with
  | .ok r => extract_response r
  | .error .conn => apologyMsg
  | .error (.other e) => processErrorMsg e

/-! ### QA agent (src/agents/qa_agent.py, `answer_repo_question`)

Repository-context gathering and the LLM call are external collaborators,
modelled as oracles returning either a value or the `str()` of a raised
exception; the single `except Exception` treats all exceptions alike, so the
exception type is just that string. -/

/-- Return shape of `answer_repo_question`.  `sources` is `none` when the
returned dict has no `"sources"` key. -/
structure QAResult where
  question : String
  answer : String
  repo : String
  sources : Option (List String)
deriving DecidableEq, Repr

/-- Model of `_extract_sources`: the context lines whose label matches one of
the fixed prefixes, capped at 5. -/
def extract_sources (context : String) : List String :=
  ((pyLines context).filter (fun line =>
    pyStartsWith line "Repository:" || pyStartsWith line "README" ||
      pyStartsWith line "Recent commits")).take 5

/-- Render of `qa_prompt_template.format(context=..., question=...)`. -/
def qaPrompt (context question : String) : String :=
  "You are a helpful GitHub repository assistant. Answer questions about repositories based on the provided context.\n\nContext about the repository:\n"
    ++ context ++ "\n\nQuestion: " ++ question ++
    "\n\nProvide a clear, concise answer. If you don" ++ sq ++
    "t have enough information, say so."

/-- Model of `HubMindQAAgent.answer_repo_question`: gather context (the oracle
covers `get_repo` plus `_gather_repo_context`), query the LLM with the
assembled prompt, and return the structured dict; the `except` branch returns
the dict without a `"sources"` key and an `"Error: "`-prefixed answer. -/
def answer_repo_question (repo_full_name question : String)
    (gatherCtx : Except String String)
    (llm : String → Except String String) : QAResult :=
  match gatherCtx with
  | .error e =>
      { question := question, answer := "Error: " ++ e, repo := repo_full_name
        sources := none }
  | .ok context =>
    match llm (qaPrompt context question) with
    | .error e =>
        { question := question, answer := "Error: " ++ e, repo := repo_full_name
          sources := none }
    | .ok ans =>
        { question := question, answer := ans, repo := repo_full_name
          sources := some (extract_sources context) }

/-! ### Concrete fixtures used by the claim theorems and witnesses -/

/-- A stub pull request updated on day 0, open, with no code changes, varying
only in number and comment count. -/
def stubPR (n c : Nat) : PullRequest :=
  { number := n, title := "t", state := "open", author := "a", comments := c,
    review_comments := 0, additions := 0, deletions := 0, updatedDay := 0, url := "u" }

/-- The spec's worked value-score example: comments=5, review_comments=2,
additions=250, deletions=40, state merged. -/
def examplePR : PullRequest :=
  { number := 0, title := "", state := "merged", author := "", comments := 5,
    review_comments := 2, additions := 250, deletions := 40, updatedDay := 0, url := "" }

/-- The shape of `_create_openai`: it passes `model`, `temperature`, `api_key`
explicitly and drops only `api_key` from the passthrough. -/
def openaiShape : AdapterShape :=
  { name := "openai", explicitKeys := ["model", "temperature", "api_key"],
    droppedKeys := ["api_key"] }

/-- An agent whose every invocation raises a connection-class fault. -/
def connOracle : AgentOracle :=
  { invoke := fun _ _ _ => Except.error PyExc.conn }

/-! ### Claim theorems -/

/-- C2: the PR value score is a deterministic function of
(comments, review_comments, additions, deletions, state), equal to
2·comments + 3·review_comments + min(additions/100, 10) + min(deletions/100, 5)
plus 20 if merged else 5 if open else 0, rounded to two decimal places; on the
spec's example inputs (5, 2, 250, 40, merged) it is exactly 38.90. -/
theorem value_score_formula (pr : PullRequest) :
    calculate_value_score pr =
      round2 (2 * pr.comments + 3 * pr.review_comments +
        min ((pr.additions : ℚ) / 100) 10 + min ((pr.deletions : ℚ) / 100) 5 +
        stateBonus pr.state) ∧
    (∀ pr' : PullRequest, pr'.comments = pr.comments →
        pr'.review_comments = pr.review_comments →
        pr'.additions = pr.additions → pr'.deletions = pr.deletions →
        pr'.state = pr.state →
        calculate_value_score pr' = calculate_value_score pr) ∧
    calculate_value_score examplePR = 389 / 10 := by
  refine ⟨?_, ?_, ?_⟩
  · unfold calculate_value_score stateBonus round2
    rcases Nat.eq_zero_or_pos pr.additions with ha | ha <;>
      rcases Nat.eq_zero_or_pos pr.deletions with hd | hd <;>
        by_cases hm : pr.state = "merged" <;> by_cases ho : pr.state = "open" <;>
          simp [ha, hd, hm, ho, Nat.pos_iff_ne_zero] <;> ring_nf
  · intro pr' h1 h2 h3 h4 h5
    unfold calculate_value_score
    rw [h1, h2, h3, h4, h5]
  · norm_num [calculate_value_score, round2, stateBonus, round_eq, examplePR]

/-- C2 witness: determinism instantiated at two stub PRs that differ only in
their PR number. -/
theorem value_score_formula_witness :
    calculate_value_score (stubPR 9 7) = calculate_value_score (stubPR 10 7) :=
  (value_score_formula (stubPR 10 7)).2.1 (stubPR 9 7) rfl rfl rfl rfl rfl

/-- C3: every entry `get_valuable_prs` returns comes from a fetched PR updated
today with at least `min_comments` comments and carries its computed value
score; the output is sorted descending by value score and has at most `limit`
entries; whenever the qualifying PRs fit in `limit`, the output is exactly
(a permutation of) them; on the spec's stub of three PRs updated today with
comment counts 1, 4, 10 it returns exactly the two qualifying entries in
descending score order. -/
theorem valuable_prs_spec (fetched : List PullRequest) (today limit min_comments : Nat) :
    (∀ d ∈ get_valuable_prs fetched today limit min_comments,
        ∃ pr ∈ fetched, pr.updatedDay = today ∧ min_comments ≤ pr.comments ∧
          d = pr_to_scored_dict pr ∧ d.value_score = calculate_value_score pr) ∧
    (get_valuable_prs fetched today limit min_comments).Pairwise
      (fun a b => b.value_score ≤ a.value_score) ∧
    (get_valuable_prs fetched today limit min_comments).length ≤ limit ∧
    ((qualifyingPRs fetched today min_comments).length ≤ limit →
      (get_valuable_prs fetched today limit min_comments).Perm
        (qualifyingPRs fetched today min_comments)) ∧
    get_valuable_prs [stubPR 1 1, stubPR 2 4, stubPR 3 10] 0 10 3 =
      [pr_to_scored_dict (stubPR 3 10), pr_to_scored_dict (stubPR 2 4)] := by
  have htrans : ∀ x y z : PRDict, scoreDescLe x y = true → scoreDescLe y z = true →
      scoreDescLe x z = true := by
    intro x y z hxy hyz
    exact decide_eq_true (le_trans (of_decide_eq_true hyz) (of_decide_eq_true hxy))
  have htot : ∀ x y : PRDict, scoreDescLe x y = false → scoreDescLe y x = true := by
    intro x y h
    have : ¬ (y.value_score ≤ x.value_score) := of_decide_eq_false h
    exact decide_eq_true (le_of_lt (lt_of_not_le this))
  refine ⟨?_, ?_, ?_, ?_, ?_⟩
  · intro d hd
    have hsorted : d ∈ sortByLe scoreDescLe (qualifyingPRs fetched today min_comments) :=
      List.take_subset _ _ hd
    have hq : d ∈ qualifyingPRs fetched today min_comments :=
      (sortByLe_perm scoreDescLe _).mem_iff.mp hsorted
    unfold qualifyingPRs at hq
    rcases List.mem_filter.mp hq with ⟨hmap, hcomm⟩
    rcases List.mem_map.mp hmap with ⟨pr, hpr, rfl⟩
    rcases List.mem_filter.mp hpr with ⟨hin, hday⟩
    refine ⟨pr, hin, by simpa using hday, ?_, rfl, rfl⟩
    simpa [pr_to_scored_dict] using of_decide_eq_true hcomm
  · have hp := sortByLe_pairwise scoreDescLe htrans htot
      (qualifyingPRs fetched today min_comments)
    have hp' := hp.sublist (List.take_sublist limit _)
    exact hp'.imp (fun h => of_decide_eq_true h)
  · unfold get_valuable_prs
    rw [List.length_take]
    exact min_le_left _ _
  · intro hlen
    have hlen' : (sortByLe scoreDescLe (qualifyingPRs fetched today min_comments)).length ≤
        limit := by
      rw [(sortByLe_perm scoreDescLe _).length_eq]
      exact hlen
    unfold get_valuable_prs
    rw [List.take_of_length_le hlen']
    exact sortByLe_perm scoreDescLe _
  · have hne : (("open" : String) = "merged") = False := eq_false (by decide)
    norm_num [get_valuable_prs, qualifyingPRs, sortByLe, insertLe, scoreDescLe,
      calculate_value_score, round2, stateBonus, round_eq, pr_to_scored_dict, stubPR,
      hne, decide_eq_true_eq]

/-- C3 witness: on the three-PR stub the qualifying entries (2 of them) fit in
the default limit, so the output is a permutation of exactly those entries. -/
theorem valuable_prs_spec_witness :
    (get_valuable_prs [stubPR 1 1, stubPR 2 4, stubPR 3 10] 0 10 3).Perm
      (qualifyingPRs [stubPR 1 1, stubPR 2 4, stubPR 3 10] 0 3) ∧
    (qualifyingPRs [stubPR 1 1, stubPR 2 4, stubPR 3 10] 0 3).length = 2 :=
  ⟨(valuable_prs_spec [stubPR 1 1, stubPR 2 4, stubPR 3 10] 0 10 3).2.2.2.1 (by decide),
   by decide⟩

set_option maxRecDepth 4000 in
/-- C7: classification is a case-insensitive keyword-substring match with
first-match-wins in the order bug, feature, documentation, default question;
priority is high exactly when an urgent keyword is present, else medium; the
suggested labels are exactly [type, priority]; and the crash example classifies
as type bug, priority high with labels [bug, high]. -/
theorem classify_issue_spec (text : String) :
    (classify_issue text).suggested_labels =
      [(classify_issue text).issue_type, (classify_issue text).priority] ∧
    ((classify_issue text).priority = "high" ↔
      urgent_keywords.any (fun kw => strContains (pyLower text) kw) = true) ∧
    ((classify_issue text).issue_type = "bug" ↔
      bug_keywords.any (fun kw => strContains (pyLower text) kw) = true) ∧
    (bug_keywords.any (fun kw => strContains (pyLower text) kw) = false →
      ((classify_issue text).issue_type = "feature" ↔
        feature_keywords.any (fun kw => strContains (pyLower text) kw) = true)) ∧
    (bug_keywords.any (fun kw => strContains (pyLower text) kw) = false →
      feature_keywords.any (fun kw => strContains (pyLower text) kw) = false →
      ((classify_issue text).issue_type = "documentation" ↔
        doc_keywords.any (fun kw => strContains (pyLower text) kw) = true)) ∧
    (bug_keywords.any (fun kw => strContains (pyLower text) kw) = false →
      feature_keywords.any (fun kw => strContains (pyLower text) kw) = false →
      doc_keywords.any (fun kw => strContains (pyLower text) kw) = false →
      (classify_issue text).issue_type = "question") ∧
    classify_issue "Fix crash on startup\nSteps: open app, it crashes immediately" =
      { issue_type := "bug", priority := "high", suggested_labels := ["bug", "high"] } := by
  refine ⟨rfl, ?_, ?_, ?_, ?_, ?_, by decide⟩
  · by_cases hu : urgent_keywords.any (fun kw => strContains (pyLower text) kw) = true <;>
      simp [classify_issue, hu]
  · by_cases hb : bug_keywords.any (fun kw => strContains (pyLower text) kw) = true
    · simp [classify_issue, hb]
    · by_cases hf : feature_keywords.any (fun kw => strContains (pyLower text) kw) = true <;>
        by_cases hd : doc_keywords.any (fun kw => strContains (pyLower text) kw) = true <;>
          simp [classify_issue, hb, hf, hd]
  · intro hb
    by_cases hf : feature_keywords.any (fun kw => strContains (pyLower text) kw) = true
    · simp [classify_issue, hb, hf]
    · by_cases hd : doc_keywords.any (fun kw => strContains (pyLower text) kw) = true <;>
        simp [classify_issue, hb, hf, hd]
  · intro hb hf
    by_cases hd : doc_keywords.any (fun kw => strContains (pyLower text) kw) = true <;>
      simp [classify_issue, hb, hf, hd]
  · intro hb hf hd
    simp [classify_issue, hb, hf, hd]

/-- C7 witness: a text matching no keyword list classifies as a question with
medium priority. -/
theorem classify_issue_spec_witness :
    (classify_issue "please clarify usage").issue_type = "question" :=
  (classify_issue_spec "please clarify usage").2.2.2.2.2.1 (by decide) (by decide) (by decide)

/-- Helper: Python `split` always yields at least one group. -/
theorem splitOnChar_ne_nil (sep : Char) (l : List Char) : splitOnChar sep l ≠ [] := by
  induction l with
  | nil => simp [splitOnChar]
  | cons a as ih =>
    simp only [splitOnChar]
    split
    · simp
    · split <;> simp

/-- Helper: length of a Python slice `s[:n]`. -/
theorem pytake_length (s : String) (n : Nat) :
    (pytake s n).length = min n s.length :=
  List.length_take n s.data

/-- C8 counterexample: the code's body is not built from the remaining lines
alone.  For the single-line input "Fix the login bug" the remaining lines are
empty, yet the body repeats the whole text (the first line included) behind
the classification header; and for an input starting with a newline the title
is the first line of the stripped text, while the input's own first line is
the empty string. -/
theorem issue_title_counterexample :
    (parse_issue_text "Fix the login bug").title = "Fix the login bug" ∧
    (parse_issue_text "Fix the login bug").body =
      "**Type:** bug\n**Priority:** medium\n\nFix the login bug" ∧
    (parse_issue_text "\nFix typo").title = "Fix typo" ∧
    (pyLines "\nFix typo").head? = some "" := by
  decide

/-- C8 (amended): the parsed title is the first line of the stripped input;
when that line exceeds 100 characters the title is its first 97 characters
followed by an ellipsis and has length exactly 100; for a multi-line input the
body is the join of the remaining lines behind the classification header,
while for a single-line input the body is the whole text (the first line
itself) behind the header. -/
theorem issue_title_spec (text : String) :
    (∀ t ts, pyLines (pyStrip text) = t :: ts →
      ((t.length ≤ 100 → (parse_issue_text text).title = t) ∧
       (100 < t.length →
         (parse_issue_text text).title = pytake t 97 ++ "..." ∧
         (parse_issue_text text).title.length = 100) ∧
       (ts ≠ [] →
         (parse_issue_text text).body =
           (if pyJoin "\n" ts ≠ "" then
              classificationHeader (classify_issue text) ++ "\n\n" ++ pyJoin "\n" ts
            else classificationHeader (classify_issue text))) ∧
       (ts = [] →
         (parse_issue_text text).body =
           (if text ≠ "" then
              classificationHeader (classify_issue text) ++ "\n\n" ++ text
            else classificationHeader (classify_issue text))))) ∧
    pyLines (pyStrip text) ≠ [] := by
  constructor
  · intro t ts h
    refine ⟨?_, ?_, ?_, ?_⟩
    · intro hlen
      simp [parse_issue_text, h, Nat.not_lt.mpr hlen]
    · intro hlen
      have htitle : (parse_issue_text text).title = pytake t 97 ++ "..." := by
        simp [parse_issue_text, h, hlen]
      refine ⟨htitle, ?_⟩
      rw [htitle, String.length_append, pytake_length]
      have : min 97 t.length = 97 := Nat.min_eq_left (by omega)
      rw [this]
      rfl
    · intro hts
      have hpos : 0 < ts.length := List.length_pos.mpr hts
      have hlen : 1 < (pyLines (pyStrip text)).length := by
        rw [h]
        simpa using hpos
      by_cases hb : pyJoin "\n" ts = "" <;>
        simp [parse_issue_text, h, hlen, hpos, List.tail_cons, hb, classificationHeader]
    · intro hts
      subst hts
      by_cases hb : text = ""
      · subst hb
        decide
      · simp [parse_issue_text, h, hb, classificationHeader]
  · simp only [pyLines, ne_eq, List.map_eq_nil_iff]
    exact splitOnChar_ne_nil _ _

set_option maxRecDepth 10000 in
/-- C8 witness: the crash example parses to the title "Fix crash on startup",
a 150-character single line is truncated to exactly 100 characters, and the
single-line input's body is the header followed by the whole text. -/
theorem issue_title_spec_witness :
    (parse_issue_text "Fix crash on startup\nSteps: open app, it crashes immediately").title =
      "Fix crash on startup" ∧
    (parse_issue_text (String.mk (List.replicate 150 (Char.ofNat 97)))).title.length = 100 ∧
    (parse_issue_text "Fix the login bug").body =
      classificationHeader (classify_issue "Fix the login bug") ++ "\n\n" ++
        "Fix the login bug" :=
  ⟨((issue_title_spec "Fix crash on startup\nSteps: open app, it crashes immediately").1
      "Fix crash on startup" ["Steps: open app, it crashes immediately"] (by decide)).1
    (by decide),
   (((issue_title_spec (String.mk (List.replicate 150 (Char.ofNat 97)))).1
      (String.mk (List.replicate 150 (Char.ofNat 97))) [] (by decide)).2.1
    (by decide)).2,
   ((issue_title_spec "Fix the login bug").1 "Fix the login bug" [] (by decide)).2.2.2 rfl⟩

/-- C9: provider resolution is case-insensitive (two spellings with the same
lowering resolve identically, and "OpenAI" resolves exactly as "openai" does),
and an unregistered name fails with the unsupported-provider error whose
message lists every currently registered provider name (sorted); the sorted
listing covers exactly the registry keys. -/
theorem provider_registry_spec :
    (∀ p q m, pyLower p = pyLower q →
        create_llm builtinRegistry p m = create_llm builtinRegistry q m) ∧
    (∀ p m, lookupCreator builtinRegistry (pyLower p) = none →
        create_llm builtinRegistry p m = Except.error (unsupportedProviderMsg (pyLower p)
          ["anthropic", "azure", "deepseek", "google", "groq", "ollama", "openai",
           "openai_compatible"])) ∧
    (∀ n, n ∈ registryKeys builtinRegistry ↔
        n ∈ ["anthropic", "azure", "deepseek", "google", "groq", "ollama", "openai",
             "openai_compatible"]) ∧
    create_llm builtinRegistry "OpenAI" none = create_llm builtinRegistry "openai" none ∧
    create_llm builtinRegistry "OpenAI" none =
      Except.ok (CreatorId.openai, some "gpt-4-turbo-preview") := by
  have hsort : sortByLe pyStrLe (registryKeys builtinRegistry) =
      ["anthropic", "azure", "deepseek", "google", "groq", "ollama", "openai",
       "openai_compatible"] := by decide
  refine ⟨?_, ?_, ?_, by rfl, by rfl⟩
  · intro p q m h
    simp only [create_llm, h]
  · intro p m h
    simp only [create_llm, h, hsort]
  · intro n
    rw [show registryKeys builtinRegistry =
      ["deepseek", "openai", "anthropic", "google", "azure", "ollama", "groq",
       "openai_compatible"] from by decide]
    simp only [List.mem_cons, List.not_mem_nil, or_false]
    tauto

/-- C9 witness: the unregistered name "not-a-real-provider" fails with the
message listing all eight registered providers. -/
theorem provider_registry_spec_witness :
    create_llm builtinRegistry "not-a-real-provider" none =
      Except.error (unsupportedProviderMsg (pyLower "not-a-real-provider")
        ["anthropic", "azure", "deepseek", "google", "groq", "ollama", "openai",
         "openai_compatible"]) :=
  provider_registry_spec.2.1 "not-a-real-provider" none (by decide)

/-- C6 counterexample: the claim says every adapter removes `model` (among
other consumed keys) from the overrides before passthrough; but the openai
adapter drops only `api_key`, so an overrides mapping containing `model`
reaches the client constructor next to the explicit `model=` argument and
causes a duplicate-keyword failure. -/
theorem adapter_passthrough_counterexample :
    openaiShape ∈ adapterShapes ∧ "model" ∈ specConsumedKeys ∧
    kwargsDrop openaiShape.droppedKeys [("model", "gpt-4o")] = [("model", "gpt-4o")] ∧
    duplicateKeywordFailure openaiShape [("model", "gpt-4o")] = true := by decide

/-- C6 (amended): each adapter removes exactly the override keys it itself
consumes (openai/anthropic/google/groq: api_key; deepseek: api_key and
base_url; ollama: base_url; azure: api_key, endpoint, api_version;
openai_compatible: api_key, base_url, model, model_name) before passing the
rest through verbatim, so none of its own consumed keys ever reaches the
client constructor, and an overrides mapping containing only consumed keys
never causes a duplicate-argument failure. -/
theorem adapter_passthrough_consumed (shape : AdapterShape) (overrides : Kwargs)
    (hs : shape ∈ adapterShapes) :
    ((kwargsDrop shape.droppedKeys overrides).all
        (fun kv => !(shape.droppedKeys.contains kv.1))) = true ∧
    (overrides.all (fun kv => shape.droppedKeys.contains kv.1) = true →
      duplicateKeywordFailure shape overrides = false) := by
  constructor
  · rw [List.all_eq_true]
    intro kv hkv
    exact (List.mem_filter.mp hkv).2
  · intro h
    have hnil : kwargsDrop shape.droppedKeys overrides = [] := by
      rw [kwargsDrop, List.filter_eq_nil_iff]
      intro kv hkv
      have := (List.all_eq_true.mp h) kv hkv
      simpa using this
    rw [duplicateKeywordFailure, hnil]
    rfl

/-- C6 witness: feeding the openai adapter an overrides mapping holding only
its consumed key `api_key` causes no duplicate-keyword failure. -/
theorem adapter_passthrough_consumed_witness :
    duplicateKeywordFailure openaiShape [("api_key", "sk-test")] = false :=
  (adapter_passthrough_consumed openaiShape [("api_key", "sk-test")] (by decide)).2 (by decide)

/-- C4 (code bug): `HubMindAgent.__init__` passes the keyword `github_token`
to all three tool constructors, but `GitHubPRTool.__init__` and
`GitHubIssueTool.__init__` declare no such parameter, so the call raises
`TypeError` instead of binding the tools; only `GitHubTrendingTool` accepts
the keyword and implements the intended binding (user token if truthy, else
the process default). -/
theorem agent_tool_binding_type_error :
    pyCallAccepts prToolInitParams agentToolCallKwargs = false ∧
    pyCallAccepts issueToolInitParams agentToolCallKwargs = false ∧
    pyCallAccepts trendingToolInitParams agentToolCallKwargs = true ∧
    trendingBoundToken (some "user-token") "process-default-token" = "user-token" ∧
    trendingBoundToken none "process-default-token" = "process-default-token" := by
  decide

/-- C1: `chat` always returns a string (it is a total function of the oracle's
behaviour): a successful first invocation is extracted and returned; a
connection-class fault on the first invocation leads to exactly one retry under
a freshly derived thread-id seed (salted with the clock, hence different from
the first seed), whose connection-class failure yields the fixed translated
apology and whose success is extracted normally; any other exception, on
either attempt, becomes the translated "error processing request" string. -/
theorem chat_resilience (message : String) (history : List ConversationTurn)
    (salt : String) (o : AgentOracle) :
    (∀ r, o.invoke 0 (firstSeed message) (inputData message) = Except.ok r →
        chat message history salt o = extract_response r) ∧
    (∀ e, o.invoke 0 (firstSeed message) (inputData message) =
        Except.error (PyExc.other e) →
        chat message history salt o = processErrorMsg e) ∧
    (o.invoke 0 (firstSeed message) (inputData message) = Except.error PyExc.conn →
        chat message history salt o =
          (match o.invoke 1 (retrySeed message salt) (inputData message) with
           | Except.ok r => extract_response r
           | Except.error PyExc.conn => apologyMsg
           | Except.error (PyExc.other e) => processErrorMsg e) ∧
        retrySeed message salt ≠ firstSeed message) := by
  refine ⟨?_, ?_, ?_⟩
  · intro r h
    simp [chat, invokeWithRetry, h]
  · intro e h
    simp [chat, invokeWithRetry, h]
  · intro h
    constructor
    · rcases h2 : o.invoke 1 (retrySeed message salt) (inputData message) with r | e
      · simp [chat, invokeWithRetry, h, h2]
      · rcases e with _ | e <;> simp [chat, invokeWithRetry, h, h2]
    · intro hEq
      have hlen := congrArg String.length hEq
      rw [retrySeed, firstSeed, String.length_append, String.length_append] at hlen
      have hu : ("_" : String).length = 1 := rfl
      omega

/-- C1 witness: with an agent raising a connection-class fault on both
attempts, `chat` returns the fixed apology string, and the retry correlator
seed differs from the first one. -/
theorem chat_resilience_witness :
    chat "list trending repos" [] "1700000000.0" connOracle = apologyMsg ∧
    retrySeed "list trending repos" "1700000000.0" ≠ firstSeed "list trending repos" := by
  have h := (chat_resilience "list trending repos" [] "1700000000.0" connOracle).2.2 rfl
  exact ⟨h.1, h.2⟩

/-- C10: `chat` never reads its chat-history argument: its result is the same
for any two histories, the input it sends to the agent is the single human
message built from the new message alone, and the first thread-id seed is
derived from the message only. -/
theorem chat_history_noninterference (message salt : String) (o : AgentOracle)
    (h₁ h₂ : List ConversationTurn) :
    chat message h₁ salt o = chat message h₂ salt o ∧
    inputData message = [{ content := message }] ∧
    firstSeed message = message :=
  ⟨rfl, rfl, rfl⟩

/-- C5 counterexample: on internal failure (the repository fetch raising), the
returned dict carries the error-prefixed answer but has no `sources` key, so
the full structured shape including `sources[]` is not preserved on the error
path, contrary to the claim. -/
theorem answer_repo_question_counterexample :
    (answer_repo_question "octocat/hello-world" "what is this repo"
        (Except.error "rate limit exceeded") (fun _ => Except.ok "unused")).sources =
      none ∧
    (answer_repo_question "octocat/hello-world" "what is this repo"
        (Except.error "rate limit exceeded") (fun _ => Except.ok "unused")).answer =
      "Error: rate limit exceeded" := by
  constructor <;> rfl

/-- C5 (amended): `answer_repo_question` never throws and always returns the
structured shape {question, answer, repo}; on success it additionally carries
`sources` (the matching context lines, capped at 5 entries) and the verbatim
LLM reply; on internal failure the answer is the error-prefixed string and the
`sources` key is absent. -/
theorem answer_repo_question_spec (repo q : String) (gather : Except String String)
    (llm : String → Except String String) :
    (answer_repo_question repo q gather llm).question = q ∧
    (answer_repo_question repo q gather llm).repo = repo ∧
    (∀ context, gather = Except.ok context →
      (∀ ans, llm (qaPrompt context q) = Except.ok ans →
        (answer_repo_question repo q gather llm).answer = ans ∧
        (answer_repo_question repo q gather llm).sources =
          some (extract_sources context) ∧
        (extract_sources context).length ≤ 5) ∧
      (∀ e, llm (qaPrompt context q) = Except.error e →
        (answer_repo_question repo q gather llm).answer = "Error: " ++ e ∧
        (answer_repo_question repo q gather llm).sources = none)) ∧
    (∀ e, gather = Except.error e →
      (answer_repo_question repo q gather llm).answer = "Error: " ++ e ∧
      (answer_repo_question repo q gather llm).sources = none) := by
  refine ⟨?_, ?_, ?_, ?_⟩
  · rcases gather with e | c
    · rfl
    · rcases h : llm (qaPrompt c q) with e | a <;>
        simp [answer_repo_question, h]
  · rcases gather with e | c
    · rfl
    · rcases h : llm (qaPrompt c q) with e | a <;>
        simp [answer_repo_question, h]
  · intro context hc
    subst hc
    constructor
    · intro ans ha
      refine ⟨?_, ?_, ?_⟩
      · simp [answer_repo_question, ha]
      · simp [answer_repo_question, ha]
      · rw [extract_sources, List.length_take]
        exact min_le_left _ _
    · intro e he
      exact ⟨by simp [answer_repo_question, he], by simp [answer_repo_question, he]⟩
  · intro e he
    subst he
    exact ⟨rfl, rfl⟩

/-- C5 witness: on a successful run over a two-line context, the sources list
is the matching context line. -/
theorem answer_repo_question_spec_witness :
    (answer_repo_question "octocat/hi" "what language"
        (Except.ok "Repository: octocat/hi\nStars: 3")
        (fun _ => Except.ok "a small demo repo")).sources =
      some (extract_sources "Repository: octocat/hi\nStars: 3") ∧
    extract_sources "Repository: octocat/hi\nStars: 3" = ["Repository: octocat/hi"] :=
  ⟨(((answer_repo_question_spec "octocat/hi" "what language"
        (Except.ok "Repository: octocat/hi\nStars: 3")
        (fun _ => Except.ok "a small demo repo")).2.2.1
      "Repository: octocat/hi\nStars: 3" rfl).1 "a small demo repo" rfl).2.1,
   by decide⟩

end HubMind
